import Mathlib

/-!
Verification development for the `isprs` GMPE evaluation engine.

The Python sources under `src/` are shallowly embedded below:
* JSON numbers and the scalar inputs (magnitude, distance, periods, vs30,
  coefficients) are modelled as `ℚ`; floating point arithmetic performed by
  the terms (`np.exp`, `np.log`, `np.sqrt`, `+`, `*`) is modelled over `ℝ`.
* fallible Python code (KeyError / TypeError / ValueError raising paths) is
  modelled with `Except`; stateful methods on the GMPE orchestrator are
  modelled as explicit state-passing functions returning the result paired
  with the post-state, so that the state at the moment an exception escapes
  is still observable (as it is on a mutated Python object).
-/

/-- Python exception conditions that the embedded fragment can raise.
`coefficientNotFound` models the `ValueError("Invalid key sequence: ...")`
raised by `FunctionalTerm._coefficients_lookup` when a `KeyError` occurs,
which the spec calls the `CoefficientNotFound` condition. -/
inductive PyErr where
  | typeError
  | coefficientNotFound
  | indexError
  | keyError
  | attributeError
  | valueError
  deriving DecidableEq, Repr

/-- Errors produced while walking a nested JSON structure:
a missing key raises `KeyError`; indexing a numeric leaf raises `TypeError`. -/
inductive WalkErr where
  | keyError
  | typeError
  deriving DecidableEq, Repr

/-- Fault types accepted by `BSSA13EventTerm` (`"U"`, `"SS"`, `"NS"`, `"RS"`). -/
inductive FaultType where
  | U
  | SS
  | NS
  | RS
  deriving DecidableEq, Repr

/-- The one-hot indicator row `U, SS, NS, RS` produced by the `dummy_vars`
dictionary in `BSSA13EventTerm.calculate`. -/
structure Indicators where
  U : ℝ
  SS : ℝ
  NS : ℝ
  RS : ℝ

/-- The `dummy_vars` dictionary of `BSSA13EventTerm.calculate`:
each fault type maps to its one-hot indicator row. -/
noncomputable def dummyVars : FaultType → Indicators
  | .U => ⟨1, 0, 0, 0⟩
  | .SS => ⟨0, 1, 0, 0⟩
  | .NS => ⟨0, 0, 1, 0⟩
  | .RS => ⟨0, 0, 0, 1⟩

/-- The JSON data loaded from a coefficients table: a tree of string-keyed
objects with numeric leaves. -/
inductive Json where
  | num (q : ℚ)
  | obj (fields : List (String × Json))

/-- Looking a key up in a Python dict represented as an ordered association
list. -/
def dictGet : List (String × Json) → String → Option Json
  | [], _ => none
  | p :: rest, k => if p.1 = k then some p.2 else dictGet rest k

/-- Walking a key path through JSON data, as the inner loop of
`FunctionalTerm._coefficients_lookup` does with `result = result[o]`:
a missing key in an object raises `KeyError`; indexing a numeric leaf
raises `TypeError`. -/
def Json.walkE : Json → List String → Except WalkErr Json
  | j, [] => .ok j
  | .obj fields, k :: ks =>
    match dictGet fields k with
    | some j => Json.walkE j ks
    | none => .error .keyError
  | .num _, _ :: _ => .error .typeError

/-- One element of the `lookup` argument of
`FunctionalTerm._coefficients_lookup`: either a plain string (as passed by
`FunctionalTerm.__init__` from `coefficients_list`) or a tuple of strings
(as passed by the BSSA13 term constructors, `(name, str(period))`; `map(str, i)`
has already been applied to the tuple elements). -/
inductive LookupItem where
  | str (s : String)
  | tup (elems : List String)

/-- `i[0]` for a lookup item: for a string this is its first character
(as a one-character string), for a tuple its first element; `none` models
the `IndexError` raised on an empty string or tuple. -/
def LookupItem.key : LookupItem → Option String
  | .str s => s.toList.head?.map Char.toString
  | .tup elems => elems.head?

/-- `map(str, i)` for a lookup item: iterating a string yields its
characters one by one, iterating a tuple yields its elements. -/
def LookupItem.path : LookupItem → List String
  | .str s => s.toList.map Char.toString
  | .tup elems => elems

/-- `coefficients.update({coefficient_name: result})` on a Python dict:
an existing key keeps its position but takes the new value, a new key is
appended at the end (dicts keep insertion order and have unique keys). -/
def updateEntry : List (String × Json) → String → Json → List (String × Json)
  | [], k, v => [(k, v)]
  | p :: rest, k, v => if p.1 = k then (k, v) :: rest else p :: updateEntry rest k v

/-- The loop of `FunctionalTerm._coefficients_lookup`, with the dict built
so far as the accumulator.  For each item, `i[0]` is taken as the
coefficient name, then the item's path is walked from the root of the data;
a `KeyError` during the walk is converted to the
`ValueError`/`CoefficientNotFound` condition, while a `TypeError` escapes
the `except KeyError` handler unchanged. -/
def coefficientsLookupAux (data : Json) (acc : List (String × Json)) :
    List LookupItem → Except PyErr (List (String × Json))
  | [] => .ok acc
  | i :: rest =>
    match i.key with
    | none => .error .indexError
    | some name =>
      match data.walkE i.path with
      | .error .keyError => .error .coefficientNotFound
      | .error .typeError => .error .typeError
      | .ok v => coefficientsLookupAux data (updateEntry acc name v) rest

/-- `FunctionalTerm._coefficients_lookup`: resolve a batch of lookup items
against the same JSON data, returning the name-to-value dict, or failing as
a whole. -/
def coefficientsLookup (data : Json) (lookup : List LookupItem) :
    Except PyErr (List (String × Json)) :=
  coefficientsLookupAux data [] lookup

/-- The coefficient lookup performed by `FunctionalTerm.__init__` on the raw
`coefficients_list` of plain string names: each name is resolved
character-wise. -/
def functionalTermInit (data : Json) (coefficients_list : List String) :
    Except PyErr (List (String × Json)) :=
  coefficientsLookup data (coefficients_list.map LookupItem.str)

/-- Reading one coefficient out of a resolved dict and requiring a numeric
leaf, as `self._coefficients["e0"]` followed by float arithmetic does: a
missing key raises `KeyError`, a non-numeric value makes the subsequent
arithmetic raise `TypeError`. -/
def getNum (coefficients : List (String × Json)) (k : String) :
    Except PyErr ℚ :=
  match dictGet coefficients k with
  | some (.num q) => .ok q
  | some (.obj _) => .error .typeError
  | none => .error .keyError

section LookupLemmas

theorem dictGet_updateEntry_self (d : List (String × Json)) (k : String)
    (v : Json) : dictGet (updateEntry d k v) k = some v := by
  induction d with
  | nil => simp [updateEntry, dictGet]
  | cons p rest ih =>
    by_cases hpk : p.1 = k
    · simp [updateEntry, hpk, dictGet]
    · simp [updateEntry, hpk, dictGet, ih]

theorem dictGet_updateEntry_ne (d : List (String × Json)) (k k' : String)
    (v : Json) (hne : k' ≠ k) :
    dictGet (updateEntry d k v) k' = dictGet d k' := by
  have hkk' : ¬k = k' := fun h => hne h.symm
  induction d with
  | nil => simp [updateEntry, dictGet, hkk']
  | cons p rest ih =>
    by_cases hpk : p.1 = k
    · rw [updateEntry, if_pos hpk]
      show dictGet ((k, v) :: rest) k' = dictGet (p :: rest) k'
      rw [dictGet, dictGet, if_neg hkk', if_neg (by rw [hpk]; exact hkk')]
    · rw [updateEntry, if_neg hpk]
      rw [dictGet, dictGet]
      by_cases hpk' : p.1 = k'
      · rw [if_pos hpk', if_pos hpk']
      · rw [if_neg hpk', if_neg hpk', ih]

theorem dictGet_updateEntry_isSome (d : List (String × Json)) (k k' : String)
    (v : Json) (h : (dictGet d k').isSome) :
    (dictGet (updateEntry d k v) k').isSome := by
  by_cases hk : k' = k
  · subst hk; simp [dictGet_updateEntry_self]
  · rwa [dictGet_updateEntry_ne d k k' v hk]

/-- If the batch loop succeeds then every item's key resolved and every
item's path walked to a value. -/
theorem coefficientsLookupAux_ok_walk (data : Json) :
    ∀ (items : List LookupItem) (acc m : List (String × Json)),
      coefficientsLookupAux data acc items = .ok m →
      ∀ i ∈ items, ∃ k v, i.key = some k ∧ data.walkE i.path = .ok v := by
  intro items
  induction items with
  | nil => intro acc m _ i hi; cases hi
  | cons i rest ih =>
    intro acc m hok j hj
    rcases hk : i.key with _ | k
    · rw [coefficientsLookupAux, hk] at hok; cases hok
    · rcases hw : data.walkE i.path with e | v
      · rw [coefficientsLookupAux, hk, hw] at hok
        cases e <;> cases hok
      · rcases List.mem_cons.mp hj with hj | hj
        · subst hj; exact ⟨k, v, hk, hw⟩
        · rw [coefficientsLookupAux, hk, hw] at hok
          exact ih (updateEntry acc k v) m hok j hj

/-- If the batch loop succeeds then every key present in the accumulator
remains present in the result. -/
theorem coefficientsLookupAux_ok_mono (data : Json) :
    ∀ (items : List LookupItem) (acc m : List (String × Json)),
      coefficientsLookupAux data acc items = .ok m →
      ∀ k, (dictGet acc k).isSome → (dictGet m k).isSome := by
  intro items
  induction items with
  | nil =>
    intro acc m hok k hk
    rw [coefficientsLookupAux] at hok
    cases hok; exact hk
  | cons i rest ih =>
    intro acc m hok k hk
    rcases hik : i.key with _ | name
    · rw [coefficientsLookupAux, hik] at hok; cases hok
    · rcases hw : data.walkE i.path with e | v
      · rw [coefficientsLookupAux, hik, hw] at hok
        cases e <;> cases hok
      · rw [coefficientsLookupAux, hik, hw] at hok
        exact ih _ m hok k (dictGet_updateEntry_isSome acc name k v hk)

/-- If the batch loop succeeds then every item's key is present in the
resulting dict. -/
theorem coefficientsLookupAux_ok_mem (data : Json) :
    ∀ (items : List LookupItem) (acc m : List (String × Json)),
      coefficientsLookupAux data acc items = .ok m →
      ∀ i ∈ items, ∀ k, i.key = some k → (dictGet m k).isSome := by
  intro items
  induction items with
  | nil => intro acc m _ i hi; cases hi
  | cons i rest ih =>
    intro acc m hok j hj k hjk
    rcases hik : i.key with _ | name
    · rw [coefficientsLookupAux, hik] at hok; cases hok
    · rcases hw : data.walkE i.path with e | v
      · rw [coefficientsLookupAux, hik, hw] at hok
        cases e <;> cases hok
      · rw [coefficientsLookupAux, hik, hw] at hok
        rcases List.mem_cons.mp hj with hj | hj
        · subst hj
          rw [hik] at hjk
          cases hjk
          exact coefficientsLookupAux_ok_mono data rest _ m hok k
            (by simp [dictGet_updateEntry_self])
        · exact ih _ m hok j hj k hjk

/-- Every binding of the dict produced by a successful batch loop comes
either from an item (its key, with the value its path walked to) or was
already in the accumulator. -/
theorem coefficientsLookupAux_ok_src (data : Json) :
    ∀ (items : List LookupItem) (acc m : List (String × Json)),
      coefficientsLookupAux data acc items = .ok m →
      ∀ k v, dictGet m k = some v →
        (∃ i ∈ items, i.key = some k ∧ data.walkE i.path = .ok v) ∨
          dictGet acc k = some v := by
  intro items
  induction items with
  | nil =>
    intro acc m hok k v hkv
    rw [coefficientsLookupAux] at hok
    cases hok; exact Or.inr hkv
  | cons i rest ih =>
    intro acc m hok k v hkv
    rcases hik : i.key with _ | name
    · rw [coefficientsLookupAux, hik] at hok; cases hok
    · rcases hw : data.walkE i.path with e | w
      · rw [coefficientsLookupAux, hik, hw] at hok
        cases e <;> cases hok
      · rw [coefficientsLookupAux, hik, hw] at hok
        rcases ih _ m hok k v hkv with hsrc | hacc
        · rcases hsrc with ⟨j, hj, hjk, hjw⟩
          exact Or.inl ⟨j, List.mem_cons_of_mem i hj, hjk, hjw⟩
        · by_cases hkn : k = name
          · subst hkn
            rw [dictGet_updateEntry_self] at hacc
            cases hacc
            exact Or.inl ⟨i, List.mem_cons_self i rest, hik, hw⟩
          · rw [dictGet_updateEntry_ne acc name k w hkn] at hacc
            exact Or.inr hacc

/-- If some item's path walk raises `KeyError` and no item's walk raises
`TypeError`, the batch loop fails with the `CoefficientNotFound` condition
(and, in particular, never returns a dict). -/
theorem coefficientsLookupAux_keyError (data : Json) :
    ∀ (items : List LookupItem) (acc : List (String × Json)),
      (∀ i ∈ items, (i.key).isSome) →
      (∀ i ∈ items, data.walkE i.path ≠ .error .typeError) →
      (∃ i ∈ items, data.walkE i.path = .error .keyError) →
      coefficientsLookupAux data acc items = .error .coefficientNotFound := by
  intro items
  induction items with
  | nil =>
    intro acc _ _ hex
    rcases hex with ⟨i, hi, _⟩
    cases hi
  | cons i rest ih =>
    intro acc hkeys hnty hex
    rcases hik : i.key with _ | name
    · have := hkeys i (List.mem_cons_self i rest)
      rw [hik] at this
      cases this
    · rcases hw : data.walkE i.path with e | v
      · cases e with
        | keyError => rw [coefficientsLookupAux, hik, hw]
        | typeError => exact absurd hw (hnty i (List.mem_cons_self i rest))
      · rw [coefficientsLookupAux, hik, hw]
        apply ih
        · intro j hj; exact hkeys j (List.mem_cons_of_mem i hj)
        · intro j hj; exact hnty j (List.mem_cons_of_mem i hj)
        · rcases hex with ⟨j, hj, hjw⟩
          rcases List.mem_cons.mp hj with hj | hj
          · subst hj; rw [hw] at hjw; cases hjw
          · exact ⟨j, hj, hjw⟩

end LookupLemmas

/-! ## Structures and buildings -/

/-- `src/structures/core.py` `Structure`: a flat site/building description
with height, location, fundamental period and vs30. -/
structure Structure where
  height : ℚ
  latitude : ℚ
  longitude : ℚ
  period : ℚ
  vs30 : ℚ
  deriving DecidableEq, Repr

/-- Binding a call of `Structure.__init__(height, lat, long, period, vs30)`:
all five parameters are required, so a call that leaves `period` or `vs30`
unbound raises `TypeError` before the body runs. -/
def Structure.callInit (height lat long : ℚ) (period vs30 : Option ℚ) :
    Except PyErr Structure :=
  match period, vs30 with
  | some p, some v => .ok ⟨height, lat, long, p, v⟩
  | _, _ => .error .typeError

/-- `Structure.ground` as written in `src/structures/core.py`: it calls the
`Structure` constructor with `height`, `lat`, `long` and `period=0` but does
not supply the required `vs30` argument. -/
def Structure.ground (s : Structure) : Except PyErr Structure :=
  Structure.callInit s.height s.latitude s.longitude (some 0) none

/-- Modelled from the spec: the `ground()` transform of the flat structure
consumed by the GMPE layer — period forced to `0`, vs30 forced to `760`,
height and location kept.  The flat class shipped in `src/structures/core.py`
omits the required `vs30` argument in its own `ground` (see
`Structure.ground`), and `src/building/core.py`'s current `Building` no
longer exposes flat `period`/`vs30` attributes, while the GMPE code and its
tests rely on them; this is the ground variant the spec (§4.5, §8) and
`Building.ground`'s documentation describe. -/
def Structure.groundSpec (s : Structure) : Structure :=
  { s with period := 0, vs30 := 760 }

/-- `src/building/core.py` `SeismicProperties`: a period (possibly computed)
plus a kwargs dict of further numeric properties (height, vs30, ...). -/
structure SeismicProperties where
  period : Option ℚ
  properties : List (String × ℚ)

/-- Looking a key up in the `properties` kwargs dict. -/
def propsGet : List (String × ℚ) → String → Option ℚ
  | [], _ => none
  | p :: rest, k => if p.1 = k then some p.2 else propsGet rest k

/-- `SeismicProperties.__init__`: if no period is passed it is computed from
the passed `period_function` over the kwargs; passing neither raises
`ValueError`.  (A passed period of `0` is kept: `0 == None` is false.) -/
def SeismicProperties.callInit (period : Option ℚ)
    (period_function : Option (List (String × ℚ) → ℚ))
    (props : List (String × ℚ)) : Except PyErr SeismicProperties :=
  match period, period_function with
  | some p, _ => .ok ⟨some p, props⟩
  | none, some f => .ok ⟨some (f props), props⟩
  | none, none => .error .valueError

/-- `src/building/core.py` `Building`: location plus optional seismic
properties. -/
structure Building where
  latitude : ℚ
  longitude : ℚ
  seismic_properties : Option SeismicProperties

/-- `Building.ground`: a new `Building` at the same location whose seismic
properties are `period=0`, `vs30=760` and the original's `height`.
Accessing `.properties` on a `None` seismic_properties raises
`AttributeError`; a missing `"height"` key raises `KeyError`. -/
def Building.ground (b : Building) : Except PyErr Building :=
  match b.seismic_properties with
  | none => .error .attributeError
  | some sp =>
    match propsGet sp.properties "height" with
    | none => .error .keyError
    | some h =>
      (SeismicProperties.callInit (some 0) none
        [("vs30", (760 : ℚ)), ("height", h)]).map
        (fun spg => ⟨b.latitude, b.longitude, some spg⟩)

/-! ## BSSA13 functional terms -/

/-- Python's `str()` of the integral period values this model uses as JSON
keys (`str(0) = "0"`, `str(1) = "1"`); written for any rational with the
integral case faithful to the source, which only ever passes integer
periods. -/
def pyStr (q : ℚ) : String :=
  if q.den = 1 then toString q.num
  else toString q.num ++ "/" ++ toString q.den

/-- `BSSA13EventTerm` after construction: its coefficient set `e0..e6, Mh`
resolved at the building's period, plus magnitude and fault type. -/
structure BSSA13EventTerm where
  e0 : ℚ
  e1 : ℚ
  e2 : ℚ
  e3 : ℚ
  e4 : ℚ
  e5 : ℚ
  e6 : ℚ
  Mh : ℚ
  magnitude : ℚ
  fault_type : FaultType
  deriving DecidableEq, Repr

/-- `BSSA13EventTerm.__init__`: the base `FunctionalTerm.__init__` first
resolves the raw `coefficients_list` character-wise, then the subclass
resolves `["e0",...,"Mh"]` against `str(building.period)` and unpacks the
numeric coefficients. -/
def BSSA13EventTerm.init (table : Json) (coefficients_list : List String)
    (magnitude : ℚ) (building : Structure) (fault_type : FaultType) :
    Except PyErr BSSA13EventTerm := do
  let _base ← functionalTermInit table coefficients_list
  let cs ← coefficientsLookup table
    ((["e0", "e1", "e2", "e3", "e4", "e5", "e6", "Mh"]).map
      (fun k => LookupItem.tup [k, pyStr building.period]))
  let e0 ← getNum cs "e0"
  let e1 ← getNum cs "e1"
  let e2 ← getNum cs "e2"
  let e3 ← getNum cs "e3"
  let e4 ← getNum cs "e4"
  let e5 ← getNum cs "e5"
  let e6 ← getNum cs "e6"
  let Mh ← getNum cs "Mh"
  .ok ⟨e0, e1, e2, e3, e4, e5, e6, Mh, magnitude, fault_type⟩

/-- `BSSA13EventTerm.calculate`: unpack the one-hot fault-type indicators
from `dummy_vars`, then the piecewise magnitude scaling with the branch
chosen by `magnitude <= Mh` / `magnitude > Mh`. -/
noncomputable def BSSA13EventTerm.calculate (t : BSSA13EventTerm) : ℝ :=
  let d := dummyVars t.fault_type
  if t.magnitude ≤ t.Mh then
    (t.e0 : ℝ) + ((t.e1 : ℝ) * d.SS) + ((t.e2 : ℝ) * d.NS) +
      ((t.e3 : ℝ) * d.RS) + ((t.e4 : ℝ) * ((t.magnitude : ℝ) - (t.Mh : ℝ))) +
      ((t.e5 : ℝ) * ((t.magnitude : ℝ) - (t.Mh : ℝ)) ^ 2)
  else
    ((t.e0 : ℝ) * d.U) + ((t.e1 : ℝ) * d.SS) + ((t.e2 : ℝ) * d.NS) +
      ((t.e3 : ℝ) * d.RS) + (t.e6 : ℝ) * ((t.magnitude : ℝ) - (t.Mh : ℝ))

/-- `BSSA13PathTerm` after construction: coefficients `c1, c2, c3, mref,
rref, h` resolved at the building's period, plus magnitude and the
Joyner-Boore distance. -/
structure BSSA13PathTerm where
  c1 : ℚ
  c2 : ℚ
  c3 : ℚ
  mref : ℚ
  rref : ℚ
  h : ℚ
  magnitude : ℚ
  rjb : ℚ
  deriving DecidableEq, Repr

/-- `BSSA13PathTerm.__init__`: base character-wise lookup of the raw
`coefficients_list`, then the subclass lookup of
`["c1","c2","c3","mref","rref","h"]` at `str(building.period)`. -/
def BSSA13PathTerm.init (table : Json) (coefficients_list : List String)
    (building : Structure) (magnitude distance : ℚ) :
    Except PyErr BSSA13PathTerm := do
  let _base ← functionalTermInit table coefficients_list
  let cs ← coefficientsLookup table
    ((["c1", "c2", "c3", "mref", "rref", "h"]).map
      (fun k => LookupItem.tup [k, pyStr building.period]))
  let c1 ← getNum cs "c1"
  let c2 ← getNum cs "c2"
  let c3 ← getNum cs "c3"
  let mref ← getNum cs "mref"
  let rref ← getNum cs "rref"
  let h ← getNum cs "h"
  .ok ⟨c1, c2, c3, mref, rref, h, magnitude, distance⟩

/-- `BSSA13PathTerm.calculate`:
`r = sqrt(rjb^2 + h^2)`, then
`(c1 + c2 (M - mref)) ln(r / rref) + c3 (r - rref)`. -/
noncomputable def BSSA13PathTerm.calculate (t : BSSA13PathTerm) : ℝ :=
  let r := Real.sqrt ((t.rjb : ℝ) ^ 2 + (t.h : ℝ) ^ 2)
  let m_term := (t.c1 : ℝ) + (t.c2 : ℝ) * ((t.magnitude : ℝ) - (t.mref : ℝ))
  let ln_distance_term := Real.log (r / (t.rref : ℝ))
  let distance_term := (t.c3 : ℝ) * (r - (t.rref : ℝ))
  m_term * ln_distance_term + distance_term

/-- `BSSA13SiteTerm.f2_calculate`:
`f4 * (exp(f5 * (min(vs30, 760) - 360)) - exp(f5 * (760 - 360)))`. -/
noncomputable def f2Calculate (f4 f5 vs30 : ℝ) : ℝ :=
  f4 * (Real.exp (f5 * (min vs30 760 - 360)) - Real.exp (f5 * (760 - 360)))

/-- `BSSA13SiteTerm._calculate_linear_component`:
`c * ln(vs30 / vref)` for `vs30 <= vc`, else `c * ln(vc / vref)`
(over the reals the `elif vs30 > vc` arm is exactly the else branch). -/
noncomputable def calculateLinearComponent (c vc vref vs30 : ℝ) : ℝ :=
  if vs30 ≤ vc then c * Real.log (vs30 / vref)
  else c * Real.log (vc / vref)

/-- `BSSA13SiteTerm._calculate_nonlinear_component`:
`f1 + f2 * ln((pga_r + f3) / f3)`. -/
noncomputable def calculateNonlinearComponent (f1 f2 f3 pga_r : ℝ) : ℝ :=
  f1 + f2 * Real.log ((pga_r + f3) / f3)

/-- `BSSA13SiteTerm` after construction: its coefficient set resolved at the
building's period, `vs30`, the cached derived constant `_f2` and cached
`_linear_component`, and the (possibly still unset) reference PGA `pga_r`. -/
structure BSSA13SiteTerm where
  c : ℚ
  vc : ℚ
  vref : ℚ
  f1 : ℚ
  f3 : ℚ
  f4 : ℚ
  f5 : ℚ
  vs30 : ℚ
  f2 : ℝ
  linear_component : ℝ
  pga_r : Option ℝ

/-- `BSSA13SiteTerm.__init__`: the base constructors store `vs30` and the
`pga_r` argument; the subclass then resolves
`["c","vc","vref","f1","f3","f4","f5"]` at `str(building.period)`, unpacks
them, executes `self.pga_r = None` — unconditionally overwriting whatever
`pga_r` value the base `SiteTerm.__init__` had stored — and caches `_f2`
and `_linear_component`. -/
noncomputable def BSSA13SiteTerm.init (table : Json)
    (coefficients_list : List String) (vs30 : ℚ) (building : Structure)
    (pga_r : Option ℝ) : Except PyErr BSSA13SiteTerm := do
  let _base ← functionalTermInit table coefficients_list
  let _pga_r_from_base : Option ℝ := pga_r
  let cs ← coefficientsLookup table
    ((["c", "vc", "vref", "f1", "f3", "f4", "f5"]).map
      (fun k => LookupItem.tup [k, pyStr building.period]))
  let c ← getNum cs "c"
  let vc ← getNum cs "vc"
  let vref ← getNum cs "vref"
  let f1 ← getNum cs "f1"
  let f3 ← getNum cs "f3"
  let f4 ← getNum cs "f4"
  let f5 ← getNum cs "f5"
  .ok { c := c, vc := vc, vref := vref, f1 := f1, f3 := f3, f4 := f4,
        f5 := f5, vs30 := vs30,
        f2 := f2Calculate (f4 : ℝ) (f5 : ℝ) (vs30 : ℝ),
        linear_component :=
          calculateLinearComponent (c : ℝ) (vc : ℝ) (vref : ℝ) (vs30 : ℝ),
        pga_r := none }

/-- `BSSA13SiteTerm.set_pga_r`. -/
noncomputable def BSSA13SiteTerm.setPgaR (t : BSSA13SiteTerm) (p : ℝ) :
    BSSA13SiteTerm :=
  { t with pga_r := some p }

/-- `BSSA13SiteTerm.calculate`: linear component plus nonlinear component;
with `pga_r` still `None` the expression `self.pga_r + self._f3` raises
`TypeError`. -/
noncomputable def BSSA13SiteTerm.calculateE (t : BSSA13SiteTerm) :
    Except PyErr ℝ :=
  match t.pga_r with
  | none => .error .typeError
  | some p =>
    .ok (t.linear_component +
      calculateNonlinearComponent (t.f1 : ℝ) t.f2 (t.f3 : ℝ) p)

/-! ## The BSSA13 GMPE orchestrator -/

/-- The mutable state of a `BSSA13GMPE` object: the constructor arguments it
stores plus the three functional-term objects built by
`_instantiate_functional_terms`. -/
structure BSSA13GMPEState where
  magnitude : ℚ
  distance : ℚ
  building : Structure
  coefficients_table : Json
  coefficients_list : List String
  fault_type : FaultType
  event_term : BSSA13EventTerm
  path_term : BSSA13PathTerm
  site_term : BSSA13SiteTerm

/-- A Python value appearing at a `_change_attribute` call site: the obj /
name / value arguments are dynamically typed. -/
inductive PyVal where
  | str (s : String)
  | bldg (b : Structure)
  | num (q : ℚ)

/-- `GMPE._instantiate_functional_terms`, stepwise: each term object is
constructed and assigned in turn (event, path, site), so an exception from a
later constructor leaves the earlier assignments in place.  The site term is
built with `vs30=self.building.vs30` and no `pga_r` argument. -/
noncomputable def instantiateFunctionalTerms (g : BSSA13GMPEState) :
    Except PyErr Unit × BSSA13GMPEState :=
  match BSSA13EventTerm.init g.coefficients_table g.coefficients_list
      g.magnitude g.building g.fault_type with
  | .error e => (.error e, g)
  | .ok ev =>
    match BSSA13PathTerm.init g.coefficients_table g.coefficients_list
        g.building g.magnitude g.distance with
    | .error e => (.error e, { g with event_term := ev })
    | .ok pa =>
      match BSSA13SiteTerm.init g.coefficients_table g.coefficients_list
          g.building.vs30 g.building none with
      | .error e => (.error e, { g with event_term := ev, path_term := pa })
      | .ok si =>
        (.ok (), { g with event_term := ev, path_term := pa, site_term := si })

/-- The body of `GMPE._change_attribute(self, obj, name, value)`: `obj` is
ignored, `setattr(self, name, value)` runs, then the functional terms are
re-instantiated.  Only the attribute/value shapes that occur in the program
(`"building"` with a structure, `"magnitude"` with a number) are modelled;
any other name/value shape is a `TypeError` from `setattr`. -/
noncomputable def changeAttributeBody (g : BSSA13GMPEState)
    (name value : PyVal) : Except PyErr Unit × BSSA13GMPEState :=
  match name, value with
  | .str s, .bldg b =>
    if s = "building" then instantiateFunctionalTerms { g with building := b }
    else (.error .typeError, g)
  | .str s, .num m =>
    if s = "magnitude" then
      instantiateFunctionalTerms { g with magnitude := m }
    else (.error .typeError, g)
  | _, _ => (.error .typeError, g)

/-- Binding a call to `GMPE._change_attribute`: the signature requires three
positional arguments `(obj, name, value)`, so a call supplying any other
number of arguments raises `TypeError` at argument binding, before the body
runs and before `self` is touched. -/
noncomputable def changeAttributeCall (g : BSSA13GMPEState)
    (args : List PyVal) : Except PyErr Unit × BSSA13GMPEState :=
  match args with
  | [_obj, name, value] => changeAttributeBody g name value
  | _ => (.error .typeError, g)

/-- `BSSA13GMPE._calculate_unamplified_pga` as written: shallow-copy the
building, call `self._change_attribute("building", self.building.ground())`
— a call with only TWO arguments — compute
`pga_r = exp(event + path + site linear)`, revert the building with a second
two-argument `_change_attribute` call, and store `pga_r` in the site term.
The ground variant is the spec-modelled `Structure.groundSpec`. -/
noncomputable def calculateUnamplifiedPga (g : BSSA13GMPEState) :
    Except PyErr Unit × BSSA13GMPEState :=
  match changeAttributeCall g
      [PyVal.str "building", PyVal.bldg (Structure.groundSpec g.building)] with
  | (.error e, g1) => (.error e, g1)
  | (.ok _, g1) =>
    match changeAttributeCall g1
        [PyVal.str "building", PyVal.bldg g.building] with
    | (.error e, g2) => (.error e, g2)
    | (.ok _, g2) =>
      (.ok (),
        { g2 with
          site_term :=
            g2.site_term.setPgaR
              (Real.exp (g1.event_term.calculate + g1.path_term.calculate +
                g1.site_term.linear_component)) })

/-- `BSSA13GMPE.calculate` as written: run `_calculate_unamplified_pga`,
then sum the three term contributions. -/
noncomputable def BSSA13GMPE.calculateS (g : BSSA13GMPEState) :
    Except PyErr ℝ × BSSA13GMPEState :=
  match calculateUnamplifiedPga g with
  | (.error e, g1) => (.error e, g1)
  | (.ok _, g1) =>
    match g1.site_term.calculateE with
    | .error e => (.error e, g1)
    | .ok s =>
      (.ok (g1.event_term.calculate + g1.path_term.calculate + s), g1)

/-- Modelled from the spec: `_calculate_unamplified_pga` with the
`_change_attribute` calls binding all three parameters (the call of the
source supplies only two and raises `TypeError`; this is the intended
mutate-compute-revert protocol the spec and the repository's own tests
describe). -/
noncomputable def calculateUnamplifiedPgaIntended (g : BSSA13GMPEState) :
    Except PyErr Unit × BSSA13GMPEState :=
  match changeAttributeBody g (PyVal.str "building")
      (PyVal.bldg (Structure.groundSpec g.building)) with
  | (.error e, g1) => (.error e, g1)
  | (.ok _, g1) =>
    match changeAttributeBody g1 (PyVal.str "building")
        (PyVal.bldg g.building) with
    | (.error e, g2) => (.error e, g2)
    | (.ok _, g2) =>
      (.ok (),
        { g2 with
          site_term :=
            g2.site_term.setPgaR
              (Real.exp (g1.event_term.calculate + g1.path_term.calculate +
                g1.site_term.linear_component)) })

/-- Modelled from the spec: `calculate` on top of the intended
`_calculate_unamplified_pga`. -/
noncomputable def BSSA13GMPE.calculateIntended (g : BSSA13GMPEState) :
    Except PyErr ℝ × BSSA13GMPEState :=
  match calculateUnamplifiedPgaIntended g with
  | (.error e, g1) => (.error e, g1)
  | (.ok _, g1) =>
    match g1.site_term.calculateE with
    | .error e => (.error e, g1)
    | .ok s =>
      (.ok (g1.event_term.calculate + g1.path_term.calculate + s), g1)

/-- `BSSA13GMPE.__init__` (via `GMPE.__init__`): store the arguments and
instantiate the three functional terms; a lookup failure in any constructor
aborts construction. -/
noncomputable def BSSA13GMPE.init (building : Structure)
    (magnitude distance : ℚ) (fault_type : FaultType)
    (coefficients_table : Json) (coefficients_list : List String) :
    Except PyErr BSSA13GMPEState := do
  let ev ← BSSA13EventTerm.init coefficients_table coefficients_list
    magnitude building fault_type
  let pa ← BSSA13PathTerm.init coefficients_table coefficients_list
    building magnitude distance
  let si ← BSSA13SiteTerm.init coefficients_table coefficients_list
    building.vs30 building none
  .ok { magnitude := magnitude, distance := distance, building := building,
        coefficients_table := coefficients_table,
        coefficients_list := coefficients_list, fault_type := fault_type,
        event_term := ev, path_term := pa, site_term := si }

/-- Modelled from the spec (§4.5): the two-pass evaluation protocol as an
independent reference — pass 1 builds a transient term trio against the
ground variant of the structure and computes
`pga_r = exp(event + path + site linear component)`; pass 2 builds the trio
against the original structure, injects `pga_r` into the site term and sums
the three contributions. -/
noncomputable def twoPassSpec (table : Json) (coefficients_list : List String)
    (magnitude distance : ℚ) (building : Structure)
    (fault_type : FaultType) : Except PyErr ℝ := do
  let ground := Structure.groundSpec building
  let ev1 ← BSSA13EventTerm.init table coefficients_list magnitude ground
    fault_type
  let pa1 ← BSSA13PathTerm.init table coefficients_list ground magnitude
    distance
  let si1 ← BSSA13SiteTerm.init table coefficients_list ground.vs30 ground
    none
  let pga_r := Real.exp (ev1.calculate + pa1.calculate + si1.linear_component)
  let ev2 ← BSSA13EventTerm.init table coefficients_list magnitude building
    fault_type
  let pa2 ← BSSA13PathTerm.init table coefficients_list building magnitude
    distance
  let si2 ← BSSA13SiteTerm.init table coefficients_list building.vs30
    building none
  let s ← (si2.setPgaR pga_r).calculateE
  .ok (ev2.calculate + pa2.calculate + s)

/-- Whether an `Except` result is a normal return. -/
def exceptOk : Except PyErr α → Bool
  | .ok _ => true
  | .error _ => false

/-! ## Concrete scenario data -/

/-- A two-period JSON column: the value of one coefficient at period keys
`"0"` and `"1"`. -/
def tblCol (v0 v1 : ℚ) : Json :=
  Json.obj [("0", Json.num v0), ("1", Json.num v1)]

/-- Modelled from the spec: the BSSA13 coefficients table
(`src/gmpe/coefficients/bssa13.json`) is consumed but not shipped under
`src/`; its numeric content at the two periods the scenario exercises
(period 0, the reference-rock pass, and period 1, the scenario building) is
reconstructed from the repository's own test expectations in
`tests/gmpe/tests_bssa13.py`.  The extra `"2"`..`"5"` keys under `"c"` are
placeholders whose existence (not value) is required by the base
constructor's character-wise lookup of the raw coefficients list
`["c1",...,"c5"]`, whose result is immediately discarded. -/
def modelTable : Json :=
  Json.obj
    [ ("e0", tblCol (4473/10000) (3932/10000))
    , ("e1", tblCol (4856/10000) (4218/10000))
    , ("e2", tblCol (2459/10000) (207/1000))
    , ("e3", tblCol (4539/10000) (4124/10000))
    , ("e4", tblCol (1431/1000) (15004/10000))
    , ("e5", tblCol (5053/100000) (-18983/100000))
    , ("e6", tblCol (-1662/10000) (17895/100000))
    , ("Mh", tblCol (11/2) (62/10))
    , ("c1", tblCol (-1134/1000) (-1193/1000))
    , ("c2", tblCol (1917/10000) (10248/100000))
    , ("c3", tblCol (-809/100000) (-121/100000))
    , ("mref", tblCol (9/2) (9/2))
    , ("rref", tblCol 1 1)
    , ("h", tblCol (9/2) (574/100))
    , ("c", Json.obj
        [ ("0", Json.num (-6/10)), ("1", Json.num (-10361/10000))
        , ("2", Json.num 0), ("3", Json.num 0)
        , ("4", Json.num 0), ("5", Json.num 0) ])
    , ("vc", tblCol 1500 (96751/100))
    , ("vref", tblCol 760 760)
    , ("f1", tblCol 0 0)
    , ("f3", tblCol (1/10) (1/10))
    , ("f4", tblCol (-15/100) (-1052/10000))
    , ("f5", tblCol (-701/100000) (-844/100000)) ]

/-- The scenario building of the spec and the tests:
`Building(height=20, lat=100, long=200, period=1, vs30=350)`. -/
def scenBuilding : Structure := ⟨20, 100, 200, 1, 350⟩

/-- The raw `coefficients_list` the tests pass to the GMPE constructor. -/
def scenList : List String := ["c1", "c2", "c3", "c4", "c5"]

/-- The event term the scenario GMPE builds: period-1 coefficients,
magnitude 5, unspecified fault type. -/
def scenEventTerm : BSSA13EventTerm :=
  ⟨3932/10000, 4218/10000, 207/1000, 4124/10000, 15004/10000,
    -18983/100000, 17895/100000, 62/10, 5, FaultType.U⟩

/-- The scenario event term with the magnitude raised to 6.3. -/
def scenEventTerm63 : BSSA13EventTerm :=
  { scenEventTerm with magnitude := 63/10 }

/-- A concrete orchestrator state over the scenario inputs (the term fields
are freshly re-instantiated by the protocol before they are used, so their
initial contents are immaterial). -/
noncomputable def scenState : BSSA13GMPEState :=
  { magnitude := 5, distance := 100, building := scenBuilding,
    coefficients_table := modelTable, coefficients_list := scenList,
    fault_type := FaultType.U,
    event_term := scenEventTerm,
    path_term := ⟨-1193/1000, 10248/100000, -121/100000, 9/2, 1, 574/100, 5, 100⟩,
    site_term :=
      { c := -10361/10000, vc := 96751/100, vref := 760, f1 := 0, f3 := 1/10,
        f4 := -1052/10000, f5 := -844/100000, vs30 := 350, f2 := 0,
        linear_component := 0, pga_r := none } }

/-! ## Claim theorems -/

/-- Helper: the low-magnitude branch of `BSSA13EventTerm.calculate`. -/
theorem eventTerm_calc_low (t : BSSA13EventTerm)
    (h : t.magnitude ≤ t.Mh) :
    t.calculate = (t.e0 : ℝ) + (t.e1 : ℝ) * (dummyVars t.fault_type).SS +
      (t.e2 : ℝ) * (dummyVars t.fault_type).NS +
      (t.e3 : ℝ) * (dummyVars t.fault_type).RS +
      (t.e4 : ℝ) * ((t.magnitude : ℝ) - (t.Mh : ℝ)) +
      (t.e5 : ℝ) * ((t.magnitude : ℝ) - (t.Mh : ℝ)) ^ 2 := by
  simp only [BSSA13EventTerm.calculate, if_pos h]

/-- Helper: the high-magnitude branch of `BSSA13EventTerm.calculate`. -/
theorem eventTerm_calc_high (t : BSSA13EventTerm)
    (h : t.Mh < t.magnitude) :
    t.calculate = (t.e0 : ℝ) * (dummyVars t.fault_type).U +
      (t.e1 : ℝ) * (dummyVars t.fault_type).SS +
      (t.e2 : ℝ) * (dummyVars t.fault_type).NS +
      (t.e3 : ℝ) * (dummyVars t.fault_type).RS +
      (t.e6 : ℝ) * ((t.magnitude : ℝ) - (t.Mh : ℝ)) := by
  simp only [BSSA13EventTerm.calculate, if_neg (not_le.mpr h)]

/-- C4: `BSSA13EventTerm.calculate` is the piecewise magnitude scaling:
for `M ≤ Mh` it returns `e0 + e1·SS + e2·NS + e3·RS + e4·(M−Mh) + e5·(M−Mh)²`
(`e0` not gated by the `U` indicator), for `M > Mh` it returns
`e0·U + e1·SS + e2·NS + e3·RS + e6·(M−Mh)`, and the tie `M = Mh` always
takes the low-magnitude branch (where the `e4`/`e5` contributions vanish). -/
theorem eventTerm_piecewise (t : BSSA13EventTerm) :
    (t.magnitude ≤ t.Mh →
      t.calculate = (t.e0 : ℝ) + (t.e1 : ℝ) * (dummyVars t.fault_type).SS +
        (t.e2 : ℝ) * (dummyVars t.fault_type).NS +
        (t.e3 : ℝ) * (dummyVars t.fault_type).RS +
        (t.e4 : ℝ) * ((t.magnitude : ℝ) - (t.Mh : ℝ)) +
        (t.e5 : ℝ) * ((t.magnitude : ℝ) - (t.Mh : ℝ)) ^ 2) ∧
    (t.Mh < t.magnitude →
      t.calculate = (t.e0 : ℝ) * (dummyVars t.fault_type).U +
        (t.e1 : ℝ) * (dummyVars t.fault_type).SS +
        (t.e2 : ℝ) * (dummyVars t.fault_type).NS +
        (t.e3 : ℝ) * (dummyVars t.fault_type).RS +
        (t.e6 : ℝ) * ((t.magnitude : ℝ) - (t.Mh : ℝ))) ∧
    (t.magnitude = t.Mh →
      t.calculate = (t.e0 : ℝ) + (t.e1 : ℝ) * (dummyVars t.fault_type).SS +
        (t.e2 : ℝ) * (dummyVars t.fault_type).NS +
        (t.e3 : ℝ) * (dummyVars t.fault_type).RS) := by
  refine ⟨eventTerm_calc_low t, eventTerm_calc_high t, ?_⟩
  intro h
  rw [eventTerm_calc_low t (le_of_eq h), h]
  ring

/-- Witness for C4: the three branches evaluated at concrete inputs. -/
theorem eventTerm_piecewise_witness :
    (⟨1, 2, 3, 4, 5, 6, 7, 7, 5, FaultType.SS⟩ :
        BSSA13EventTerm).calculate = 17 ∧
    (⟨1, 2, 3, 4, 5, 6, 7, 3, 5, FaultType.U⟩ :
        BSSA13EventTerm).calculate = 15 ∧
    (⟨1, 2, 3, 4, 5, 6, 7, 5, 5, FaultType.RS⟩ :
        BSSA13EventTerm).calculate = 5 := by
  refine ⟨?_, ?_, ?_⟩
  · have h := (eventTerm_piecewise
      ⟨1, 2, 3, 4, 5, 6, 7, 7, 5, FaultType.SS⟩).1 (by norm_num)
    rw [h]
    norm_num [dummyVars]
  · have h := (eventTerm_piecewise
      ⟨1, 2, 3, 4, 5, 6, 7, 3, 5, FaultType.U⟩).2.1 (by norm_num)
    rw [h]
    norm_num [dummyVars]
  · have h := (eventTerm_piecewise
      ⟨1, 2, 3, 4, 5, 6, 7, 5, 5, FaultType.RS⟩).2.2 rfl
    rw [h]
    norm_num [dummyVars]

/-- C5: the site term's linear component equals `c · ln(vs30/vref)` whenever
`vs30 ≤ vc` (including the boundary), equals the constant `c · ln(vc/vref)`
whenever `vs30 > vc`, and is therefore constant in `vs30` strictly above the
threshold. -/
theorem linearComponent_clipped (c vc vref vs30 : ℝ) (h0 : 0 < vs30) :
    (vs30 ≤ vc →
      calculateLinearComponent c vc vref vs30 = c * Real.log (vs30 / vref)) ∧
    (vc < vs30 →
      calculateLinearComponent c vc vref vs30 = c * Real.log (vc / vref)) ∧
    (∀ v1 v2 : ℝ, vc < v1 → vc < v2 →
      calculateLinearComponent c vc vref v1 =
        calculateLinearComponent c vc vref v2) := by
  refine ⟨?_, ?_, ?_⟩
  · intro h
    simp only [calculateLinearComponent, if_pos h]
  · intro h
    simp only [calculateLinearComponent, if_neg (not_le.mpr h)]
  · intro v1 v2 h1 h2
    simp only [calculateLinearComponent, if_neg (not_le.mpr h1),
      if_neg (not_le.mpr h2)]

/-- Witness for C5: both branches and the constancy above the threshold at
concrete inputs (including the boundary `vs30 = vc`). -/
theorem linearComponent_clipped_witness :
    calculateLinearComponent 2 3 4 3 = 2 * Real.log (3 / 4) ∧
    calculateLinearComponent 2 3 4 5 = 2 * Real.log (3 / 4) ∧
    calculateLinearComponent 2 3 4 5 = calculateLinearComponent 2 3 4 6 :=
  ⟨(linearComponent_clipped 2 3 4 3 (by norm_num)).1 (by norm_num),
   (linearComponent_clipped 2 3 4 5 (by norm_num)).2.1 (by norm_num),
   (linearComponent_clipped 2 3 4 5 (by norm_num)).2.2 5 6 (by norm_num)
     (by norm_num)⟩

/-- C7: `Building.ground` yields a new building at the same location with
`period = 0`, `vs30 = 760` and the original height, while `Structure.ground`
(the flat variant in `src/structures/core.py`) omits the constructor's
required `vs30` argument and therefore raises `TypeError` for every
structure instead of returning the claimed value. -/
theorem ground_roundtrip (b : Building) (sp : SeismicProperties) (hv : ℚ)
    (hsp : b.seismic_properties = some sp)
    (hh : propsGet sp.properties "height" = some hv) :
    Building.ground b = .ok ⟨b.latitude, b.longitude,
      some ⟨some 0, [("vs30", (760 : ℚ)), ("height", hv)]⟩⟩ ∧
    ∀ s : Structure, Structure.ground s = .error PyErr.typeError := by
  constructor
  · simp only [Building.ground, hsp, hh, SeismicProperties.callInit,
      Except.map]
  · intro s
    rfl

/-- Witness for C7: the round trip on a concrete building, and the
`TypeError` from `Structure.ground` on the scenario structure. -/
theorem ground_roundtrip_witness :
    Building.ground ⟨100, 100, some ⟨some (457/1000),
        [("height", (10 : ℚ)), ("vs30", (760 : ℚ))]⟩⟩ =
      .ok ⟨100, 100, some ⟨some 0, [("vs30", (760 : ℚ)), ("height", (10 : ℚ))]⟩⟩ ∧
    Structure.ground ⟨20, 100, 200, 1, 350⟩ = .error PyErr.typeError :=
  ⟨(ground_roundtrip ⟨100, 100, some ⟨some (457/1000),
      [("height", (10 : ℚ)), ("vs30", (760 : ℚ))]⟩⟩
      ⟨some (457/1000), [("height", (10 : ℚ)), ("vs30", (760 : ℚ))]⟩
      10 rfl rfl).1,
   (ground_roundtrip ⟨100, 100, some ⟨some (457/1000),
      [("height", (10 : ℚ)), ("vs30", (760 : ℚ))]⟩⟩
      ⟨some (457/1000), [("height", (10 : ℚ)), ("vs30", (760 : ℚ))]⟩
      10 rfl rfl).2 ⟨20, 100, 200, 1, 350⟩⟩

/-- C8: every invocation of `_calculate_unamplified_pga` — and therefore of
`calculate`, which runs it first — raises `TypeError`, because
`_change_attribute` is called with two arguments while its signature
requires three. -/
theorem calculate_always_typeError (g : BSSA13GMPEState) :
    (calculateUnamplifiedPga g).1 = .error PyErr.typeError ∧
    (BSSA13GMPE.calculateS g).1 = .error PyErr.typeError :=
  ⟨rfl, rfl⟩

/-- C10: whatever `pga_r` value (including a number) is passed to the
`BSSA13SiteTerm` constructor, the constructed object's `pga_r` attribute is
`None`: the subclass constructor unconditionally overwrites the value the
base constructor stored. -/
theorem siteTerm_pga_r_overwritten (table : Json)
    (coefficients_list : List String) (vs30 : ℚ) (building : Structure)
    (pga_r : Option ℝ) (t : BSSA13SiteTerm)
    (h : BSSA13SiteTerm.init table coefficients_list vs30 building pga_r =
      .ok t) : t.pga_r = none := by
  unfold BSSA13SiteTerm.init at h
  generalize pyStr building.period = pk at h
  simp only [bind, Except.bind] at h
  iterate 9 (split at h <;> try exact Except.noConfusion h)
  cases h
  rfl

/-- Witness for C10: the scenario site term constructed with `pga_r = 7`
still has `pga_r = None`. -/
theorem siteTerm_pga_r_overwritten_witness :
    (BSSA13SiteTerm.init modelTable scenList 350 scenBuilding
      (some 7)).map (fun t => t.pga_r) = .ok none := by
  cases h : BSSA13SiteTerm.init modelTable scenList 350 scenBuilding
      (some 7) with
  | error e =>
    have hs : exceptOk (BSSA13SiteTerm.init modelTable scenList 350
        scenBuilding (some 7)) = true := rfl
    rw [h] at hs
    simp [exceptOk] at hs
  | ok t =>
    simp only [Except.map]
    rw [siteTerm_pga_r_overwritten modelTable scenList 350 scenBuilding
      (some 7) t h]

/-- C9: the base `FunctionalTerm.__init__` lookup resolves each raw
coefficient name character-wise (the name `"c1"` is looked up as
`table["c"]["1"]`), so it succeeds only when every character-wise key path
resolves, and every binding of the resulting dict is keyed by the first
character of one of the names, holding the value that name's character path
walked to. -/
theorem functionalTermInit_charwise (data : Json) (names : List String)
    (m : List (String × Json)) (h : functionalTermInit data names = .ok m) :
    (∀ n ∈ names, ∃ v,
      data.walkE (n.toList.map Char.toString) = .ok v) ∧
    (∀ k v, dictGet m k = some v →
      ∃ n ∈ names, (n.toList.head?.map Char.toString) = some k ∧
        data.walkE (n.toList.map Char.toString) = .ok v) := by
  constructor
  · intro n hn
    have hmem : LookupItem.str n ∈ names.map LookupItem.str :=
      List.mem_map_of_mem LookupItem.str hn
    obtain ⟨k, v, _, hw⟩ := coefficientsLookupAux_ok_walk data
      (names.map LookupItem.str) [] m h (LookupItem.str n) hmem
    exact ⟨v, hw⟩
  · intro k v hkv
    rcases coefficientsLookupAux_ok_src data (names.map LookupItem.str) [] m
        h k v hkv with ⟨i, hi, hik, hiw⟩ | habs
    · rcases List.mem_map.mp hi with ⟨n, hn, rfl⟩
      exact ⟨n, hn, hik, hiw⟩
    · simp [dictGet] at habs

/-- Witness for C9: the name `"c1"` resolves through `table["c"]["1"]` and
is keyed by `"c"` in the resulting dict. -/
theorem functionalTermInit_charwise_witness :
    Json.walkE modelTable ("c1".toList.map Char.toString) =
      .ok (Json.num (-10361/10000)) := by
  have h := (functionalTermInit_charwise modelTable ["c1"]
    [("c", Json.num (-10361/10000))] rfl).2 "c"
    (Json.num (-10361/10000)) rfl
  rcases h with ⟨n, hn, _, hw⟩
  have hn1 : n = "c1" := by simpa using hn
  rw [hn1] at hw
  exact hw

/-- C6: a batch coefficient lookup (a list of names, all against the same
period) either returns a dict in which every requested name is bound to the
value its `[name, period]` path resolves to, or fails as a whole; a name
absent from the table for the period makes the whole batch raise the
`CoefficientNotFound` condition (never a default value), provided no lookup
hits the distinct table-corruption `TypeError`. -/
theorem coefficientsLookup_atomic (data : Json) (names : List String)
    (period : String) :
    (∀ m, coefficientsLookup data
        (names.map (fun n => LookupItem.tup [n, period])) = .ok m →
      ∀ n ∈ names, ∃ v, dictGet m n = some v ∧
        data.walkE [n, period] = .ok v) ∧
    ((∃ n ∈ names, data.walkE [n, period] = .error .keyError) →
      (∀ n ∈ names, data.walkE [n, period] ≠ .error .typeError) →
      coefficientsLookup data
        (names.map (fun n => LookupItem.tup [n, period])) =
        .error PyErr.coefficientNotFound) := by
  constructor
  · intro m hok n hn
    have hmem : LookupItem.tup [n, period] ∈
        names.map (fun n => LookupItem.tup [n, period]) :=
      List.mem_map_of_mem _ hn
    have hkey : (LookupItem.tup [n, period]).key = some n := rfl
    have hsome := coefficientsLookupAux_ok_mem data _ [] m hok _ hmem n hkey
    obtain ⟨v, hv⟩ := Option.isSome_iff_exists.mp hsome
    rcases coefficientsLookupAux_ok_src data _ [] m hok n v hv with
      ⟨i, hi, hik, hiw⟩ | habs
    · rcases List.mem_map.mp hi with ⟨n', _, rfl⟩
      have hn' : n' = n := by
        simpa [LookupItem.key] using hik
      subst hn'
      exact ⟨v, hv, hiw⟩
    · simp [dictGet] at habs
  · intro hex hnty
    apply coefficientsLookupAux_keyError
    · intro i hi
      rcases List.mem_map.mp hi with ⟨n, _, rfl⟩
      simp [LookupItem.key]
    · intro i hi
      rcases List.mem_map.mp hi with ⟨n, hn, rfl⟩
      simpa [LookupItem.path] using hnty n hn
    · rcases hex with ⟨n, hn, hw⟩
      exact ⟨LookupItem.tup [n, period], List.mem_map_of_mem _ hn, hw⟩

/-- Witness for C6: requesting `["e0", "zz"]` at period `"1"` — `"zz"` is
absent from the table — fails atomically with `CoefficientNotFound`. -/
theorem coefficientsLookup_atomic_witness :
    coefficientsLookup modelTable
      (["e0", "zz"].map (fun n => LookupItem.tup [n, "1"])) =
      .error PyErr.coefficientNotFound := by
  apply (coefficientsLookup_atomic modelTable ["e0", "zz"] "1").2
  · exact ⟨"zz", by simp, rfl⟩
  · intro n hn
    rcases List.mem_cons.mp hn with rfl | hn
    · intro hc
      rw [show Json.walkE modelTable ["e0", "1"] =
        .ok (Json.num (3932/10000)) from rfl] at hc
      exact Except.noConfusion hc
    · rcases List.mem_cons.mp hn with rfl | hn
      · intro hc
        rw [show Json.walkE modelTable ["zz", "1"] =
          .error WalkErr.keyError from rfl] at hc
        simp at hc
      · cases hn

section FrameLemmas

/-- Re-instantiating the functional terms never touches the `building`
attribute, whether or not a term constructor fails. -/
theorem instantiateFunctionalTerms_building (g : BSSA13GMPEState) :
    (instantiateFunctionalTerms g).2.building = g.building := by
  unfold instantiateFunctionalTerms
  cases BSSA13EventTerm.init g.coefficients_table g.coefficients_list
      g.magnitude g.building g.fault_type with
  | error e => rfl
  | ok ev =>
    cases BSSA13PathTerm.init g.coefficients_table g.coefficients_list
        g.building g.magnitude g.distance with
    | error e => rfl
    | ok pa =>
      cases BSSA13SiteTerm.init g.coefficients_table g.coefficients_list
          g.building.vs30 g.building none with
      | error e => rfl
      | ok si => rfl

/-- `changeAttributeBody` with the `"building"` attribute stores exactly the
supplied building in the post-state, whether or not re-instantiation
fails. -/
theorem changeAttributeBody_building (g : BSSA13GMPEState) (b : Structure) :
    (changeAttributeBody g (PyVal.str "building")
      (PyVal.bldg b)).2.building = b := by
  have h : changeAttributeBody g (PyVal.str "building") (PyVal.bldg b) =
      instantiateFunctionalTerms { g with building := b } := by
    simp [changeAttributeBody]
  rw [h, instantiateFunctionalTerms_building]

/-- If the intended (three-argument) unamplified-PGA pass returns normally,
the building stored in the post-state is the one stored before the call:
the second `_change_attribute` restored the shallow copy taken first. -/
theorem calculateUnamplifiedPgaIntended_ok_building (g : BSSA13GMPEState) :
    (calculateUnamplifiedPgaIntended g).2.building = g.building ∨
    exceptOk (calculateUnamplifiedPgaIntended g).1 = false := by
  unfold calculateUnamplifiedPgaIntended
  rcases h1 : changeAttributeBody g (PyVal.str "building")
      (PyVal.bldg (Structure.groundSpec g.building)) with ⟨r1, g1⟩
  cases r1 with
  | error e => right; rfl
  | ok u =>
    rcases h2 : changeAttributeBody g1 (PyVal.str "building")
        (PyVal.bldg g.building) with ⟨r2, g2⟩
    have hb : g2.building = g.building := by
      have := changeAttributeBody_building g1 g.building
      rw [h2] at this
      exact this
    cases r2 with
    | error e => left; simp [h2, hb]
    | ok u2 => left; simp [h2, hb]

end FrameLemmas

/-- C2: after `calculate()` the orchestrator's externally visible building
state (in particular its period and vs30) is what it was before the call:
the `calculate` of the source raises its `TypeError` before any attribute of
`self` has been touched, and the intended three-argument protocol, whenever
it returns normally, has restored the original building, so consecutive
calls always see the same `period`/`vs30`. -/
theorem calculate_preserves_building (g : BSSA13GMPEState) :
    (BSSA13GMPE.calculateS g).2.building = g.building ∧
    (exceptOk (BSSA13GMPE.calculateIntended g).1 = true →
      (BSSA13GMPE.calculateIntended g).2.building = g.building) := by
  constructor
  · rfl
  · intro hok
    unfold BSSA13GMPE.calculateIntended at hok ⊢
    have hpre := calculateUnamplifiedPgaIntended_ok_building g
    rcases h1 : calculateUnamplifiedPgaIntended g with ⟨r1, g1⟩
    rw [h1] at hpre hok
    cases r1 with
    | error e => simp [exceptOk] at hok
    | ok u =>
      have hb : g1.building = g.building := by
        rcases hpre with hpre | hpre
        · exact hpre
        · simp [exceptOk] at hpre
      rcases hcal : g1.site_term.calculateE with e | s <;> simp [hcal, hb]

/-- Witness for C2: on the concrete scenario state both the source's
`calculate` and the intended protocol leave the building unchanged (the
intended protocol returning normally there). -/
theorem calculate_preserves_building_witness :
    (BSSA13GMPE.calculateS scenState).2.building = scenState.building ∧
    (BSSA13GMPE.calculateIntended scenState).2.building =
      scenState.building :=
  ⟨(calculate_preserves_building scenState).1,
   (calculate_preserves_building scenState).2 (by rfl)⟩

/-- `changeAttributeBody` on `("building", b)` is `setattr` of the building
followed by term re-instantiation. -/
theorem changeAttributeBody_eq (g : BSSA13GMPEState) (b : Structure) :
    changeAttributeBody g (PyVal.str "building") (PyVal.bldg b) =
      instantiateFunctionalTerms { g with building := b } := by
  simp [changeAttributeBody]

/-- C1: the source's `calculate()` raises `TypeError` on every input (its
two-pass protocol never executes — see C8); with the `_change_attribute`
arity slip repaired, `calculate()` refines the spec's two-pass protocol
exactly: pass 1 evaluates event, path and the linear site component against
the ground variant (period 0, vs30 760) giving
`pga_r = exp(event + path + linear)`, pass 2 rebuilds the terms against the
original structure, injects `pga_r` into the site term, and the result is
the sum of the three term contributions (with identical failure
behaviour). -/
theorem calculate_two_pass (g : BSSA13GMPEState) :
    (BSSA13GMPE.calculateS g).1 = .error PyErr.typeError ∧
    (BSSA13GMPE.calculateIntended g).1 =
      twoPassSpec g.coefficients_table g.coefficients_list g.magnitude
        g.distance g.building g.fault_type := by
  constructor
  · rfl
  · unfold BSSA13GMPE.calculateIntended calculateUnamplifiedPgaIntended
      twoPassSpec
    rw [changeAttributeBody_eq]
    unfold instantiateFunctionalTerms
    simp only [bind, Except.bind]
    try dsimp only
    cases hev1 : BSSA13EventTerm.init g.coefficients_table
        g.coefficients_list g.magnitude (Structure.groundSpec g.building)
        g.fault_type with
    | error e => rfl
    | ok ev1 =>
      try dsimp only
      cases hpa1 : BSSA13PathTerm.init g.coefficients_table
          g.coefficients_list (Structure.groundSpec g.building) g.magnitude
          g.distance with
      | error e => rfl
      | ok pa1 =>
        try dsimp only
        cases hsi1 : BSSA13SiteTerm.init g.coefficients_table
            g.coefficients_list (Structure.groundSpec g.building).vs30
            (Structure.groundSpec g.building) none with
        | error e => rfl
        | ok si1 =>
          try dsimp only
          rw [changeAttributeBody_eq]
          unfold instantiateFunctionalTerms
          try dsimp only
          cases hev2 : BSSA13EventTerm.init g.coefficients_table
              g.coefficients_list g.magnitude g.building g.fault_type with
          | error e => rfl
          | ok ev2 =>
            try dsimp only
            cases hpa2 : BSSA13PathTerm.init g.coefficients_table
                g.coefficients_list g.building g.magnitude g.distance with
            | error e => rfl
            | ok pa2 =>
              try dsimp only
              cases hsi2 : BSSA13SiteTerm.init g.coefficients_table
                  g.coefficients_list g.building.vs30 g.building none with
              | error e => rfl
              | ok si2 =>
                simp [BSSA13SiteTerm.setPgaR, BSSA13SiteTerm.calculateE]

/-- C3: on the scenario (magnitude 5, Rjb 100, period 1, vs30 350, fault U)
the event term the GMPE builds evaluates to ≈ −1.680 (within 0.01), and with
magnitude 6.3 the event term switches to the high-magnitude branch of the
`Mh = 6.2` hinge and evaluates to ≈ +0.411 (within 0.01); the claimed
`pga_r ≈ 0.0029` and final `calculate() ≈ −6.260`, however, are never
produced, because `calculate()` raises `TypeError` on every input. -/
theorem scenario_concrete :
    (BSSA13GMPE.init scenBuilding 5 100 FaultType.U modelTable scenList).map
        (fun g => g.event_term) = .ok scenEventTerm ∧
    |scenEventTerm.calculate + 168/100| < 1/100 ∧
    (BSSA13GMPE.init scenBuilding (63/10) 100 FaultType.U modelTable
        scenList).map (fun g => g.event_term) = .ok scenEventTerm63 ∧
    |scenEventTerm63.calculate - 411/1000| < 1/100 ∧
    ∀ g : BSSA13GMPEState,
      (BSSA13GMPE.calculateS g).1 = .error PyErr.typeError := by
  refine ⟨rfl, ?_, rfl, ?_, fun g => rfl⟩
  · have hle : (scenEventTerm.magnitude : ℚ) ≤ scenEventTerm.Mh := by
      norm_num [scenEventTerm]
    rw [eventTerm_calc_low scenEventTerm hle, abs_lt]
    constructor <;> norm_num [scenEventTerm, dummyVars]
  · have hgt : (scenEventTerm63.Mh : ℚ) < scenEventTerm63.magnitude := by
      norm_num [scenEventTerm63, scenEventTerm]
    rw [eventTerm_calc_high scenEventTerm63 hgt, abs_lt]
    constructor <;> norm_num [scenEventTerm63, scenEventTerm, dummyVars]
